import Mathlib

/-!
Verification development for the NathUI chat engine (src/chatloop.py).

The engine is shallowly embedded: Python strings are lists of characters,
the mutable `Chatloop` object is an explicit `ChatState` record, and each
external collaborator (completion service, web crawler, address resolver,
SQLite layer) is a field of an `Env` record.  Python exceptions are
modelled with `Except`: every embedded operation returns the pair of an
`Except` result and the state at the moment the operation returned or
raised, matching the fact that a raised Python exception leaves the
object with whatever mutations had already been performed.
-/

namespace NathUI

/-- A Python string, as its list of characters. -/
abbrev Str := List Char

/-- Shorthand to turn a Lean string literal into the embedded string type. -/
def str (s : String) : Str := s.data

/-- A Python exception, identified by its rendered message. -/
abbrev Err := Str

/-! ### Python string primitives used by chatloop.py -/

/-- The whitespace characters stripped by Python `str.strip()` (ASCII part). -/
def isPySpace (c : Char) : Bool :=
  c == ' ' || c == '\t' || c == '\n' || c == '\r' || c == '\x0B' || c == '\x0C'

/-- Python `s.strip()`. -/
def pyStrip (s : Str) : Str :=
  ((s.dropWhile isPySpace).reverse.dropWhile isPySpace).reverse

/-- Python `s.replace(r"\\\\", "\\\\")`: every non-overlapping, leftmost
occurrence of four backslashes is replaced by two backslashes
(chatloop.py line 806). -/
def collapseBS4 : Str → Str
  | '\\' :: '\\' :: '\\' :: '\\' :: rest => '\\' :: '\\' :: collapseBS4 rest
  | c :: rest => c :: collapseBS4 rest
  | [] => []

/-- The input normalization performed at the top of `handle_special_commands`:
strip, then collapse the four-backslash escape (chatloop.py lines 803-806). -/
def normalizeInput (s : Str) : Str := collapseBS4 (pyStrip s)

/-- Python `s.lower()` (character-wise; the command tokens are ASCII). -/
def pyLower (s : Str) : Str := s.map Char.toLower

/-- Python `s.find(pat, start) >= 0`: some occurrence of `pat` begins at an
index that is at least `start`.  All uses in chatloop.py have
`start >= 6 > 0`, so `find > 0` is occurrence and `find < 0` is absence. -/
def occursFrom (pat : Str) (start : Nat) (s : Str) : Bool :=
  (List.range (s.length + 1)).any fun i => decide (start ≤ i) && pat.isPrefixOf (s.drop i)

/-- Helper for `pySplit`; `fuel` bounds the recursion by the input length. -/
def pySplitAux (sep : Str) : Nat → Str → Str → List Str
  | _, [], acc => [acc.reverse]
  | 0, s, acc => [acc.reverse ++ s]
  | fuel + 1, c :: rest, acc =>
    if sep.isPrefixOf (c :: rest) then
      acc.reverse :: pySplitAux sep fuel (List.drop sep.length (c :: rest)) []
    else
      pySplitAux sep fuel rest (c :: acc)

/-- Python `s.split(sep)` for a non-empty separator: split at every
non-overlapping leftmost occurrence. -/
def pySplit (sep s : Str) : List Str := pySplitAux sep s.length s []

/-- strutil.str_unquote: drop one matching pair of surrounding double or
single quotes, if present. -/
def str_unquote (s : Str) : Str :=
  if ((str "\"").isPrefixOf s = true ∧ (str "\"").isSuffixOf s = true)
     ∨ ((str "\x27").isPrefixOf s = true ∧ (str "\x27").isSuffixOf s = true) then
    (s.drop 1).dropLast
  else s

/-- Python `str(b)` for a boolean. -/
def pyBoolStr (b : Bool) : Str := if b then str "True" else str "False"

/-! ### Python dictionaries as association lists (insertion-ordered) -/

/-- Python `d.get(k)` / `d.get(k, None)` where the stored value is never
`None` (caches); `none` means the key is absent. -/
def dictGet {α : Type} (d : List (Str × α)) (k : Str) : Option α :=
  match d with
  | [] => none
  | (k1, v) :: rest => if k1 = k then some v else dictGet rest k

/-- Python `d[k] = v`: overwrite in place if the key exists, else append,
preserving insertion order like a Python dict. -/
def dictSet {α : Type} (d : List (Str × α)) (k : Str) (v : α) : List (Str × α) :=
  match d with
  | [] => [(k, v)]
  | (k1, v1) :: rest => if k1 = k then (k, v) :: rest else (k1, v1) :: dictSet rest k v

/-! ### Data model -/

deriving instance DecidableEq for Except

/-- One tool invocation requested by the completion response
(ChatCompletionMessageToolCall).  `arguments` carries the outcome of
`json.loads` on the argument text: external data decides whether it parses. -/
structure ToolCall where
  id : Str
  type : Str
  name : Str
  arguments : Except Err Str
  deriving DecidableEq

/-- The value returned by a tool handler: its optional direct "response"
field, and its `json.dumps` serialization. -/
structure ToolRes where
  responseField : Option Str
  dumped : Str
  deriving DecidableEq

/-- A registered tool callable: parsed arguments to result, possibly raising. -/
abbrev ToolFn := Str → Except Err ToolRes

/-- A chat message dict, in the three shapes chatloop.py builds:
plain `{role, content}`, an assistant `{role, tool_calls}` record, and a
tool result `{role, content, tool_call_id}`. -/
inductive Message where
  | chat (role content : Str)
  | toolCallsMsg (role : Str) (calls : List ToolCall)
  | toolMsg (role content tool_call_id : Str)
  deriving DecidableEq

/-- First component of a `responses` entry: `""` in control rounds,
`None` or the tool-call list in chat rounds. -/
inductive ToolsSlot where
  | noneS
  | emptyStr
  | calls (l : List ToolCall)
  deriving DecidableEq

/-- A list of crawled documents (`crawl_from_search` result). -/
abbrev SearchRes := List Str

/-- A completion response: `message.tool_calls` and `message.content`. -/
structure CompResp where
  tool_calls : Option (List ToolCall)
  content : Str

/-- Outcome of a SQLite call: success, a `QueryExecutionError` (swallowed by
the command layer), or another exception type (which propagates). -/
inductive SqlOutcome where
  | ok
  | qee
  | err (e : Err)

/-- Whether a SQLite outcome is an unswallowed exception. -/
def SqlOutcome.isErr : SqlOutcome → Bool
  | .err _ => true
  | _ => false

/-- An inference-parameter value; `pynone` models Python `None` so that the
`get(key, None) is not None` test in `infer_params_set` is expressible. -/
inductive PyVal where
  | pynone
  | pyint (n : Int)
  deriving DecidableEq

/-- A control descriptor: the tagged dict returned by
`handle_special_commands` for non-chat commands.  `emptyD` is the empty dict
`\x7b\x7d` used as the error descriptor. -/
inductive Descriptor where
  | emptyD
  | synD
  | deleteD
  | deleteallD
  | toolcallD (result : Str)
  | locateD (tgt : Str)
  | connectD (tgt : Str)
  | insertD (key : Str)
  | updateD (key : Str)
  | queryD (q : Str)
  deriving DecidableEq

/-- The classifier outcome: Python `None` (quit), a descriptor dict, or text. -/
inductive CmdResult where
  | quitR
  | control (d : Descriptor)
  | text (s : Str)
  deriving DecidableEq

/-! ### The external collaborators -/

/-- External collaborators of the engine.  Completion oracles are indexed by
the number of completion requests already issued, so a single deterministic
environment can answer a first and a follow-up request differently. -/
structure Env where
  /-- Global debug flag (debug.nathui_global_debug). -/
  debug : Bool
  /-- The usage text `display_intro` writes to the command buffer. -/
  usageText : Str
  /-- visitor.is_file: classify an address into 0, 1 (file), 2 (url),
  3 (folder), or -1; `urlparse` inside it can raise on malformed input. -/
  classify : Str → Except Err Int
  /-- visitor.file_visitor with noexcept=True: total, returns text. -/
  fileVisit : Str → Str
  /-- WebCrawler.crawl_website. -/
  crawlSite : Str → Except Err Str
  /-- The FileWalker traverse / dataframe pipeline producing the folder
  listing text (chatloop.py lines 576-587). -/
  walkDir : Str → Except Err Str
  /-- WebCrawler.crawl_from_search. -/
  crawlSearch : Str → Except Err SearchRes
  /-- WebCrawler.concat. -/
  concatRes : SearchRes → Str
  /-- os.path.exists on the locate target. -/
  pathExists : Str → Bool
  /-- SQLiteClient plus SQLiteParser construction in handle_locate. -/
  locateClient : Str → Str → SqlOutcome
  /-- SQLiteParser.create_table for a table name. -/
  createTable : Str → SqlOutcome
  /-- SQLiteParser.insert on a (key, content) row; outcome is fully
  swallowed by handle_insert. -/
  insertRow : Str → Str → SqlOutcome
  /-- SQLiteParser.update on a (key, content) row; swallowed likewise. -/
  updateRow : Str → Str → SqlOutcome
  /-- Observable outcome of the select branch body: the selected text, or
  any failure (which the branch turns into the error descriptor). -/
  selectOutcome : Str → Except Err Str
  /-- Observable outcome of handle_query: `some` text for a read query,
  `none` for an executed non-read query, error for a failure. -/
  queryOutcome : Str → Except Err (Option Str)
  /-- chat.completions.create without the tools argument, indexed by the
  number of completion calls made so far. -/
  completions : Nat → Except Err CompResp
  /-- chat.completions.create with the tools argument. -/
  completionsTools : Nat → Except Err CompResp

/-! ### The session state -/

/-- The mutable state of a `Chatloop` object, plus instrumentation counters
for the external calls (fetch = file/url/folder content resolution,
crawlLog = queries passed to crawl_from_search, completionCalls = completion
requests issued). -/
structure ChatState where
  ongoing : Bool
  use_tools : Bool
  default_table : Str
  visit_cache : List (Str × Str)
  search_cache : List (Str × SearchRes)
  command_buffer : Str
  round_number : Nat
  responses : List (ToolsSlot × Str)
  messages : List Message
  original_messages : List Message
  visit_prompt : Str
  search_prompt : Str
  infer_param : List (Str × PyVal)
  tool_dict : List (Str × ToolFn)
  lastDiagnostic : Option Str
  fetchCalls : Nat
  crawlLog : List Str
  completionCalls : Nat

/-- Chatloop.handle_error: prints a diagnostic template containing the error
details and returns None; modelled as recording the diagnostic. -/
def handleError (e : Err) (st : ChatState) : ChatState :=
  { st with lastDiagnostic := some e }

/-! ### The cache layer: Chatloop.handle_visit (chatloop.py lines 522-595) -/

/-- Chatloop.handle_visit: unquote and strip the address, classify it, and
resolve file / url / folder content through the visit cache.  A resolver
invocation bumps `fetchCalls`; an unclassifiable address yields `none`.
Python stores even an empty fetched string, and `dict.get` then treats it
as a hit, so every fetched result is cached. -/
def handleVisit (env : Env) (s0 : Str) (st : ChatState) :
    Except Err (Option Str) × ChatState :=
  let sp := str_unquote (pyStrip s0)
  match env.classify sp with
  | .error e => (.error e, st)
  | .ok t =>
    if t = 1 then
      match dictGet st.visit_cache sp with
      | some c => (.ok (some c), st)
      | none =>
        let c := env.fileVisit sp
        (.ok (some c), { st with visit_cache := dictSet st.visit_cache sp c,
                                 fetchCalls := st.fetchCalls + 1 })
    else if t = 2 then
      match dictGet st.visit_cache sp with
      | some c => (.ok (some c), st)
      | none =>
        match env.crawlSite sp with
        | .error e => (.error e, { st with fetchCalls := st.fetchCalls + 1 })
        | .ok c =>
          (.ok (some c), { st with visit_cache := dictSet st.visit_cache sp c,
                                   fetchCalls := st.fetchCalls + 1 })
    else if t = 3 then
      match dictGet st.visit_cache sp with
      | some c => (.ok (some c), st)
      | none =>
        match env.walkDir sp with
        | .error e => (.error e, { st with fetchCalls := st.fetchCalls + 1 })
        | .ok c =>
          (.ok (some c), { st with visit_cache := dictSet st.visit_cache sp c,
                                   fetchCalls := st.fetchCalls + 1 })
    else
      (.ok none, st)

/-! ### SQLite command handlers (chatloop.py lines 597-712) -/

/-- Chatloop.handle_connect: create the table if absent; a
QueryExecutionError is swallowed, any other exception propagates. -/
def handleConnect (env : Env) (table : Str) (st : ChatState) :
    Except Err Unit × ChatState :=
  match env.createTable (pyStrip table) with
  | .err e => (.error e, st)
  | _ => (.ok (), st)

/-- Chatloop.handle_locate: strip and unquote both arguments, diagnose a
missing database file (execution continues), repoint `default_table`, then
construct the client and create the table; QueryExecutionError is swallowed
at both steps, other exceptions propagate. -/
def handleLocate (env : Env) (dbf tbl : Str) (st : ChatState) :
    Except Err Unit × ChatState :=
  let d := str_unquote (pyStrip dbf)
  let t := str_unquote (pyStrip tbl)
  let st1 := if env.pathExists d then st
             else handleError (str "Database file does not exist.") st
  let st2 := { st1 with default_table := t }
  match env.locateClient d t with
  | .err e => (.error e, st2)
  | _ =>
    match env.createTable (pyStrip t) with
    | .err e => (.error e, st2)
    | _ => (.ok (), st2)

/-! ### The command classifier: Chatloop.handle_special_commands
(chatloop.py lines 800-1326) -/

/-- The bare visit branches (lines 850-889): everything after the token is
the address; on unresolvable address return the empty (error) descriptor,
otherwise the visit prompt with the content interpolated twice. -/
def visitBare (env : Env) (rest : Str) (st : ChatState) :
    Except Err CmdResult × ChatState :=
  let vq := pyStrip rest
  match handleVisit env vq st with
  | (.error e, st1) => (.error e, st1)
  | (.ok none, st1) => (.ok (.control .emptyD), st1)
  | (.ok (some c), st1) =>
    (.ok (.text (st1.visit_prompt ++ vq ++ str "? " ++ c ++ str "{Document} : " ++ c)), st1)

/-- The delimited visit branches (lines 891-941): the middle split segment is
the address (unstripped in the prompt), the last is the custom prompt. -/
def visitDelim (env : Env) (vq cp : Str) (st : ChatState) :
    Except Err CmdResult × ChatState :=
  match handleVisit env vq st with
  | (.error e, st1) => (.error e, st1)
  | (.ok none, st1) => (.ok (.control .emptyD), st1)
  | (.ok (some c), st1) =>
    (.ok (.text (cp ++ vq ++ str "? " ++ c ++ str "{Document} : " ++ c)), st1)

/-- Cache miss path of search: record the crawl query, invoke
crawl_from_search, and cache the document list under the clean query. -/
def searchFetch (env : Env) (clean : Str) (st : ChatState) :
    Except Err SearchRes × ChatState :=
  let st1 := { st with crawlLog := st.crawlLog ++ [clean] }
  match env.crawlSearch clean with
  | .error e => (.error e, st1)
  | .ok r => (.ok r, { st1 with search_cache := dictSet st1.search_cache clean r })

/-- Shared body of the four search branches (lines 943-1053): cache hit
requires a non-empty clean query; the result text is the prompt prefix, the
clean query, and the concatenated documents. -/
def searchCore (env : Env) (pfx clean : Str) (st : ChatState) :
    Except Err CmdResult × ChatState :=
  match dictGet st.search_cache clean with
  | some r =>
    if clean.length > 0 then
      (.ok (.text (pfx ++ clean ++ str "? " ++ env.concatRes r)), st)
    else
      match searchFetch env clean st with
      | (.error e, st1) => (.error e, st1)
      | (.ok r2, st1) => (.ok (.text (pfx ++ clean ++ str "? " ++ env.concatRes r2)), st1)
  | none =>
    match searchFetch env clean st with
    | (.error e, st1) => (.error e, st1)
    | (.ok r2, st1) => (.ok (.text (pfx ++ clean ++ str "? " ++ env.concatRes r2)), st1)

/-- The delimited locate branches (lines 1055-1087). -/
def locateDelim (env : Env) (db tb : Str) (st : ChatState) :
    Except Err CmdResult × ChatState :=
  match handleLocate env db tb st with
  | (.error e, st1) => (.error e, st1)
  | (.ok _, st1) => (.ok (.control (.locateD (db ++ str "->" ++ tb))), st1)

/-- The bare connect branches (lines 1089-1107): reconnect the parser to the
current default table (the parser handle itself is external state). -/
def connectBare (env : Env) (st : ChatState) : Except Err CmdResult × ChatState :=
  match handleConnect env st.default_table st with
  | (.error e, st1) => (.error e, st1)
  | (.ok _, st1) => (.ok (.control (.connectD st1.default_table)), st1)

/-- The delimited connect branches (lines 1109-1145): repoint
`default_table` at the stripped middle segment, then connect. -/
def connectDelim (env : Env) (tbl : Str) (st : ChatState) :
    Except Err CmdResult × ChatState :=
  let st1 := { st with default_table := pyStrip tbl }
  match handleConnect env st1.default_table st1 with
  | (.error e, st2) => (.error e, st2)
  | (.ok _, st2) => (.ok (.control (.connectD st2.default_table)), st2)

/-- The select branches (lines 1223-1268): rebuild the delimited DSL query
and wrap the selected text; any failure becomes the error descriptor. -/
def selectDelim (env : Env) (cls pr : Str) (st : ChatState) :
    Except Err CmdResult × ChatState :=
  let q := str "\\select " ++ pyStrip cls ++ str " \\select"
  match env.selectOutcome q with
  | .ok s =>
    (.ok (.text (str "[Answer Question]" ++ pr ++ str " based on [Document for Reference] " ++ s)), st)
  | .error e => (.ok (.control .emptyD), handleError e st)

/-- The query branches (lines 1270-1324): a read query is wrapped as text, a
non-read query yields the query descriptor, a failure the error descriptor. -/
def queryDelim (env : Env) (qc pr : Str) (st : ChatState) :
    Except Err CmdResult × ChatState :=
  let q := pyStrip qc
  match env.queryOutcome q with
  | .ok (some s) =>
    (.ok (.text (str "[Answer Question]" ++ pr ++ str " based on [Document for Reference] " ++ s)), st)
  | .ok none => (.ok (.control (.queryD q)), st)
  | .error e => (.ok (.control .emptyD), handleError e st)

/-- An optional dispatch result: `some` when a branch of this group fired,
`none` when the input falls through to the next group of branches. -/
abbrev DispatchRes := Option (Except Err CmdResult × ChatState)

/-- The exact-match command branches of handle_special_commands, in source
order (lines 811-847): quit, syntax, delete, deleteall, toolcall. -/
def dispatchExact (env : Env) (lu : Str) (st : ChatState) : DispatchRes :=
  if lu = str "\\quit" ∨ lu = str "\\\\quit" then
    some (.ok .quitR, st)
  else if lu = str "\\syntax" ∨ lu = str "\\\\syntax" then
    some (.ok (.control .synD),
      { st with command_buffer := if env.debug then env.usageText else [] })
  else if lu = str "\\delete" ∨ lu = str "\\\\delete" then
    if st.messages.length > 1 then
      some (.ok (.control .deleteD),
        { st with messages := st.messages.take 1,
                  original_messages := st.original_messages.take 1 })
    else
      some (.ok (.control .deleteD), st)
  else if lu = str "\\deleteall" ∨ lu = str "\\\\deleteall" then
    match st.messages with
    | [] => some (.error (str "IndexError"), st)
    | m :: _ =>
      let st1 := { st with messages := [m] }
      match st1.original_messages with
      | [] => some (.error (str "IndexError"), st1)
      | o :: _ => some (.ok (.control .deleteallD), { st1 with original_messages := [o] })
  else if lu = str "\\toolcall" ∨ lu = str "\\\\toolcall" then
    some (.ok (.control (.toolcallD (pyBoolStr (!st.use_tools)))),
      { st with use_tools := !st.use_tools })
  else none

/-- The four visit branches (lines 849-941), in source order. -/
def dispatchVisit (env : Env) (u lu : Str) (st : ChatState) : DispatchRes :=
  if (str "\\visit").isPrefixOf lu = true ∧ occursFrom (str "\\visit") 6 lu = false then
    some (visitBare env (u.drop 7) st)
  else if (str "\\\\visit").isPrefixOf lu = true ∧ occursFrom (str "\\\\visit") 7 lu = false then
    some (visitBare env (u.drop 8) st)
  else if (str "\\visit").isPrefixOf lu = true ∧ occursFrom (str "\\visit") 6 lu = true then
    match pySplit (str "\\visit") u with
    | [_, vq, cp] => some (visitDelim env vq cp st)
    | _ => some (.ok (.control .emptyD), handleError (str "Invalid prompt") st)
  else if (str "\\\\visit").isPrefixOf lu = true ∧ occursFrom (str "\\\\visit") 7 lu = true then
    match pySplit (str "\\\\visit") u with
    | [_, vq, cp] => some (visitDelim env vq cp st)
    | _ => some (.ok (.control .emptyD), handleError (str "Invalid prompt") st)
  else none

/-- The four search branches (lines 943-1053), in source order. -/
def dispatchSearch (env : Env) (u lu : Str) (st : ChatState) : DispatchRes :=
  if (str "\\search").isPrefixOf lu = true ∧ occursFrom (str "\\search") 7 lu = false then
    some (searchCore env st.search_prompt (str_unquote (pyStrip (pyStrip (u.drop 7)))) st)
  else if (str "\\\\search").isPrefixOf lu = true ∧ occursFrom (str "\\\\search") 8 lu = false then
    some (searchCore env st.search_prompt (str_unquote (pyStrip (pyStrip (u.drop 8)))) st)
  else if (str "\\search").isPrefixOf lu = true ∧ occursFrom (str "\\search") 7 lu = true then
    match pySplit (str "\\search") u with
    | [_, sq, cp] => some (searchCore env cp (str_unquote (pyStrip sq)) st)
    | _ => some (.ok (.control .emptyD), handleError (str "Invalid prompt") st)
  else if (str "\\\\search").isPrefixOf lu = true ∧ occursFrom (str "\\\\search") 8 lu = true then
    match pySplit (str "\\\\search") u with
    | [_, sq, cp] => some (searchCore env cp (str_unquote (pyStrip sq)) st)
    | _ => some (.ok (.control .emptyD), handleError (str "Invalid prompt") st)
  else none

/-- The two locate branches (lines 1055-1087). -/
def dispatchLocate (env : Env) (u lu : Str) (st : ChatState) : DispatchRes :=
  if (str "\\locate").isPrefixOf lu = true ∧ occursFrom (str "\\locate") 7 lu = true then
    match pySplit (str "\\locate") u with
    | [_, db, tb] => some (locateDelim env db tb st)
    | _ => some (.ok (.control .emptyD), handleError (str "Invalid prompt") st)
  else if (str "\\\\locate").isPrefixOf lu = true ∧ occursFrom (str "\\\\locate") 8 lu = true then
    match pySplit (str "\\\\locate") u with
    | [_, db, tb] => some (locateDelim env db tb st)
    | _ => some (.ok (.control .emptyD), handleError (str "Invalid prompt") st)
  else none

/-- The four connect branches (lines 1089-1145): bare forms first. -/
def dispatchConnect (env : Env) (u lu : Str) (st : ChatState) : DispatchRes :=
  if (str "\\connect").isPrefixOf lu = true ∧ occursFrom (str "\\connect") 8 lu = false then
    some (connectBare env st)
  else if (str "\\\\connect").isPrefixOf lu = true ∧ occursFrom (str "\\\\connect") 9 lu = false then
    some (connectBare env st)
  else if (str "\\connect").isPrefixOf lu = true ∧ occursFrom (str "\\connect") 8 lu = true then
    match pySplit (str "\\connect") u with
    | [_, tbl, _] => some (connectDelim env tbl st)
    | _ => some (.ok (.control .emptyD), handleError (str "Invalid prompt") st)
  else if (str "\\\\connect").isPrefixOf lu = true ∧ occursFrom (str "\\\\connect") 9 lu = true then
    match pySplit (str "\\\\connect") u with
    | [_, tbl, _] => some (connectDelim env tbl st)
    | _ => some (.ok (.control .emptyD), handleError (str "Invalid prompt") st)
  else none

/-- The insert branches (lines 1147-1183); the storage call swallows every
exception, so only the descriptor with the raw key segment is observable. -/
def dispatchInsert (env : Env) (u lu : Str) (st : ChatState) : DispatchRes :=
  if (str "\\insert").isPrefixOf lu = true ∧ occursFrom (str "\\insert") 7 lu = true then
    match pySplit (str "\\insert") u with
    | [_, pk, ct] =>
      let _ := env.insertRow (pyStrip pk) (pyStrip ct)
      some (.ok (.control (.insertD pk)), st)
    | _ => some (.ok (.control .emptyD), handleError (str "Invalid prompt") st)
  else if (str "\\\\insert").isPrefixOf lu = true ∧ occursFrom (str "\\\\insert") 8 lu = true then
    match pySplit (str "\\\\insert") u with
    | [_, pk, ct] =>
      let _ := env.insertRow (pyStrip pk) (pyStrip ct)
      some (.ok (.control (.insertD pk)), st)
    | _ => some (.ok (.control .emptyD), handleError (str "Invalid prompt") st)
  else none

/-- The update branches (lines 1185-1221), mirroring insert. -/
def dispatchUpdate (env : Env) (u lu : Str) (st : ChatState) : DispatchRes :=
  if (str "\\update").isPrefixOf lu = true ∧ occursFrom (str "\\update") 7 lu = true then
    match pySplit (str "\\update") u with
    | [_, pk, ct] =>
      let _ := env.updateRow (pyStrip pk) (pyStrip ct)
      some (.ok (.control (.updateD pk)), st)
    | _ => some (.ok (.control .emptyD), handleError (str "Invalid prompt") st)
  else if (str "\\\\update").isPrefixOf lu = true ∧ occursFrom (str "\\\\update") 8 lu = true then
    match pySplit (str "\\\\update") u with
    | [_, pk, ct] =>
      let _ := env.updateRow (pyStrip pk) (pyStrip ct)
      some (.ok (.control (.updateD pk)), st)
    | _ => some (.ok (.control .emptyD), handleError (str "Invalid prompt") st)
  else none

/-- The select branches (lines 1223-1268). -/
def dispatchSelect (env : Env) (u lu : Str) (st : ChatState) : DispatchRes :=
  if (str "\\select").isPrefixOf lu = true ∧ occursFrom (str "\\select") 7 lu = true then
    match pySplit (str "\\select") u with
    | [_, cls, pr] => some (selectDelim env cls pr st)
    | _ => some (.ok (.control .emptyD), handleError (str "Invalid prompt") st)
  else if (str "\\\\select").isPrefixOf lu = true ∧ occursFrom (str "\\\\select") 8 lu = true then
    match pySplit (str "\\\\select") u with
    | [_, cls, pr] => some (selectDelim env cls pr st)
    | _ => some (.ok (.control .emptyD), handleError (str "Invalid prompt") st)
  else none

/-- The query branches (lines 1270-1324). -/
def dispatchQuery (env : Env) (u lu : Str) (st : ChatState) : DispatchRes :=
  if (str "\\query").isPrefixOf lu = true ∧ occursFrom (str "\\query") 6 lu = true then
    match pySplit (str "\\query") u with
    | [_, qc, pr] => some (queryDelim env qc pr st)
    | _ => some (.ok (.control .emptyD), handleError (str "Invalid prompt") st)
  else if (str "\\\\query").isPrefixOf lu = true ∧ occursFrom (str "\\\\query") 7 lu = true then
    match pySplit (str "\\\\query") u with
    | [_, qc, pr] => some (queryDelim env qc pr st)
    | _ => some (.ok (.control .emptyD), handleError (str "Invalid prompt") st)
  else none

/-- The full elif chain of handle_special_commands (lines 811-1326) over the
normalized input `u` and its lowercase form `lu`: the branch groups are
tried in source order and anything unmatched falls through unchanged as
plain text (line 1326). -/
def dispatchCommand (env : Env) (u lu : Str) (st : ChatState) :
    Except Err CmdResult × ChatState :=
  match dispatchExact env lu st with
  | some r => r
  | none =>
  match dispatchVisit env u lu st with
  | some r => r
  | none =>
  match dispatchSearch env u lu st with
  | some r => r
  | none =>
  match dispatchLocate env u lu st with
  | some r => r
  | none =>
  match dispatchConnect env u lu st with
  | some r => r
  | none =>
  match dispatchInsert env u lu st with
  | some r => r
  | none =>
  match dispatchUpdate env u lu st with
  | some r => r
  | none =>
  match dispatchSelect env u lu st with
  | some r => r
  | none =>
  match dispatchQuery env u lu st with
  | some r => r
  | none => (.ok (.text u), st)

/-- Chatloop.handle_special_commands: strip the raw input, collapse the
four-backslash escape, clear the command buffer (lines 803-809), and
dispatch on the lowercased form in source branch order. -/
def handleSpecialCommands (env : Env) (rawInput : Str) (st0 : ChatState) :
    Except Err CmdResult × ChatState :=
  let u := normalizeInput rawInput
  dispatchCommand env u (pyLower u) { st0 with command_buffer := [] }

/-! ### Round lifecycle: Chatloop.api_chat_once and its callees -/

/-- Chatloop.process_response (lines 1717-1742): rendering and the
think/output split have no session-state effect; when `append` is set the
full content is appended as the assistant turn to both histories. -/
def processResponse (content : Str) (append : Bool) (st : ChatState) : ChatState :=
  if append then
    { st with messages := st.messages ++ [Message.chat (str "assistant") content],
              original_messages := st.original_messages ++ [Message.chat (str "assistant") content] }
  else st

/-- The control-round reply text dispatched on the descriptor tag in
api_chat_once (lines 1536-1599).  The syntax reply is whatever
display_intro wrote into the command buffer. -/
def controlMessage (st : ChatState) : Descriptor → Str
  | .synD => st.command_buffer
  | .deleteD => str "`Previous Chat Deleted`"
  | .deleteallD => str "`Chat History Deleted`"
  | .toolcallD r => str "`Toolcall switched to " ++ r ++ str "`"
  | .locateD t => str "`Relocated and connected to database: " ++ t ++ str "`"
  | .connectD t => str "`Connected to table: " ++ t ++ str "`"
  | .insertD k => str "`Inserted by key: " ++ k ++ str "`"
  | .updateD k => str "`Updated by key: " ++ k ++ str "`"
  | .queryD q => str "`Executed SQL Query: " ++ q ++ str "`"
  | .emptyD => str ""

/-- Running value of the `result` variable in the tool loop: still unbound
(`NameError` at the final `return result` if no invocation passed the type
check), the empty string set just before an unknown tool name is skipped
(later `result.get` raises `AttributeError`), or a handler result. -/
inductive ToolLoopVal where
  | undef
  | emptyS
  | res (r : ToolRes)
  deriving DecidableEq

/-- Chatloop.handle_triggered_tool_calls (lines 1661-1714): each invocation
of type "function" has its arguments parsed (`json.loads` may raise), its
handler looked up (unknown names are skipped) and run (may raise); a
successful result is appended as an identical tool message to both
histories.  The value of `result` after the loop is returned. -/
def handleTriggeredToolCalls (stt : List (Str × ToolFn)) :
    List ToolCall → ToolLoopVal → ChatState → Except Err ToolLoopVal × ChatState
  | [], acc, st => (.ok acc, st)
  | tc :: rest, acc, st =>
    if tc.type ≠ str "function" then
      handleTriggeredToolCalls stt rest acc st
    else
      match tc.arguments with
      | .error e => (.error e, st)
      | .ok args =>
        match dictGet stt tc.name with
        | none => handleTriggeredToolCalls stt rest .emptyS st
        | some f =>
          match f args with
          | .error e => (.error e, st)
          | .ok r =>
            let m := Message.toolMsg (str "tool") r.dumped tc.id
            handleTriggeredToolCalls stt rest (.res r)
              { st with messages := st.messages ++ [m],
                        original_messages := st.original_messages ++ [m] }

/-- Python truthiness of `message.tool_calls`: `None` and `[]` are falsy. -/
def toolCallsTruthy : Option (List ToolCall) → Bool
  | none => false
  | some l => !l.isEmpty

/-- The first component stored in `responses` for a chat round. -/
def toolsSlotOf : Option (List ToolCall) → ToolsSlot
  | none => .noneS
  | some l => .calls l

/-- The tool phase of request_onetime_response (lines 1771-1819): the
assistant tool-call record is appended identically to both histories, the
tool loop runs, and either the last result direct "response" field is
returned with no second request, or a follow-up request without tools is
issued.  An unbound or string-valued loop result raises at the
`return result` / `result.get` lines. -/
def toolPhase (env : Env) (calls : List ToolCall) (st1 : ChatState) :
    Except Err (Option (List ToolCall) × Str) × ChatState :=
  let m := Message.toolCallsMsg (str "assistant") calls
  let st2 := { st1 with messages := st1.messages ++ [m],
                        original_messages := st1.original_messages ++ [m] }
  match handleTriggeredToolCalls st2.tool_dict calls .undef st2 with
  | (.error e, st3) => (.error e, st3)
  | (.ok .undef, st3) => (.error (str "NameError: name result is not defined"), st3)
  | (.ok .emptyS, st3) => (.error (str "AttributeError: str object has no attribute get"), st3)
  | (.ok (.res r2), st3) =>
    match r2.responseField with
    | some resp => (.ok (none, resp), st3)
    | none =>
      let st4 := { st3 with completionCalls := st3.completionCalls + 1 }
      match env.completions st3.completionCalls with
      | .error e => (.error e, st4)
      | .ok r3 => (.ok (r3.tool_calls, r3.content), st4)

/-- Chatloop.request_onetime_response (lines 1744-1822): without tools one
completion request; with tools, a truthy tool-call list enters the tool
phase, anything else is returned as is. -/
def requestOnetimeResponse (env : Env) (st : ChatState) :
    Except Err (Option (List ToolCall) × Str) × ChatState :=
  if st.use_tools = false then
    let st1 := { st with completionCalls := st.completionCalls + 1 }
    match env.completions st.completionCalls with
    | .error e => (.error e, st1)
    | .ok r => (.ok (r.tool_calls, r.content), st1)
  else
    let st1 := { st with completionCalls := st.completionCalls + 1 }
    match env.completionsTools st.completionCalls with
    | .error e => (.error e, st1)
    | .ok r =>
      if toolCallsTruthy r.tool_calls = true then
        toolPhase env (r.tool_calls.getD []) st1
      else
        (.ok (r.tool_calls, r.content), st1)

/-- Chatloop.api_chat_once (lines 1478-1648), driven with an external input
(the console-input fallback reads the same value from stdin).  The return
value mirrors Python: `none` for None, `some true` for True.  The classifier
runs outside the try block, so its exceptions propagate; the try block
around the chat phase catches everything there, records a diagnostic and
still advances the round counter.  A truthy tool-call list surviving to the
round level hits the missing `process_tool_calls` attribute (line 1636), an
AttributeError the same except clause catches. -/
def apiChatOnce (env : Env) (userInput : Str) (chat : Bool)
    (appendInputFront : Bool) (appendControlResponse : Bool) (st : ChatState) :
    Except Err (Option Bool) × ChatState :=
  match handleSpecialCommands env userInput st with
  | (.error e, st1) => (.error e, st1)
  | (.ok .quitR, st1) => (.ok none, { st1 with ongoing := false })
  | (.ok (.control d), st1) =>
    let st2 := if appendInputFront then
                 { st1 with messages := st1.messages ++ [Message.chat (str "user") userInput],
                            original_messages := st1.original_messages ++ [Message.chat (str "user") userInput] }
               else st1
    match d with
    | .emptyD => (.ok none, st2)
    | _ =>
      let msg := controlMessage st2 d
      let st3 := { st2 with responses := st2.responses ++ [(ToolsSlot.emptyStr, msg)] }
      let st4 := processResponse msg appendControlResponse st3
      (.ok none, { st4 with round_number := st4.round_number + 1 })
  | (.ok (.text p), st1) =>
    -- For text results the front append (lines 1506-1514) and the non-front
    -- append (lines 1606-1609) add the same pair: the processed input to the
    -- canonical history, the raw input to the display history.
    let st2 := { st1 with messages := st1.messages ++ [Message.chat (str "user") p],
                          original_messages := st1.original_messages ++ [Message.chat (str "user") userInput] }
    if chat = false then (.ok (some true), st2)
    else
      match requestOnetimeResponse env st2 with
      | (.error e, st3) =>
        (.ok none, { (handleError e st3) with round_number := st3.round_number + 1 })
      | (.ok (tcs, resp), st3) =>
        let st4 := { st3 with responses := st3.responses ++ [(toolsSlotOf tcs, resp)] }
        if toolCallsTruthy tcs = true then
          (.ok none, { (handleError (str "AttributeError: process_tool_calls")) st4 with
                       round_number := st4.round_number + 1 })
        else
          let st5 := processResponse resp true st4
          (.ok (some true), { st5 with round_number := st5.round_number + 1 })

/-! ### Persistence: Chatloop.save_messages / load_messages
(chatloop.py lines 458-485) -/

/-- The ordered 4-element save record `[magic, messages, original, responses]`. -/
structure SaveFile where
  tag : Str
  msgs : List Message
  omsgs : List Message
  resp : List (ToolsSlot × Str)
  deriving DecidableEq

/-- The magic save-file marker. -/
def magicTag : Str := str "NathUI~Savefile~"

/-- Chatloop.save_messages with `path = None`: return the record (the path
variant pickles exactly this record to disk). -/
def save_messages (st : ChatState) : SaveFile :=
  ⟨magicTag, st.messages, st.original_messages, st.responses⟩

/-- Chatloop.load_messages on an in-memory record: adopt the three stored
sequences only when the magic tag matches, else keep the current state. -/
def load_messages (r : SaveFile) (st : ChatState) : ChatState :=
  if r.tag = magicTag then
    { st with messages := r.msgs, original_messages := r.omsgs, responses := r.resp }
  else st

/-! ### Chatloop.infer_params_set (chatloop.py lines 509-520) -/

/-- One iteration of the infer_params_set loop: overwrite the stored value
only when `infer_param.get(key, None) is not None`. -/
def inferStep (cur : List (Str × PyVal)) (kv : Str × PyVal) : List (Str × PyVal) :=
  match dictGet cur kv.1 with
  | some PyVal.pynone => cur
  | some _ => dictSet cur kv.1 kv.2
  | none => cur

/-- Chatloop.infer_params_set: for each key of the argument dict in order,
run the guarded overwrite; no new key is ever added. -/
def infer_params_set (st : ChatState) (param_dict : List (Str × PyVal)) : ChatState :=
  { st with infer_param := param_dict.foldl inferStep st.infer_param }

/-! ### Concrete environments and states for witnesses and counterexamples -/

/-- A benign concrete environment. -/
def env0 : Env where
  debug := false
  usageText := []
  classify := fun s => if s = str "file.txt" then .ok 1
                       else if s = str "http://x" then .ok 2 else .ok 0
  fileVisit := fun _ => str "FILECONTENT"
  crawlSite := fun _ => .ok (str "WEB")
  walkDir := fun _ => .ok (str "DIR")
  crawlSearch := fun _ => .ok []
  concatRes := fun _ => []
  pathExists := fun _ => true
  locateClient := fun _ _ => .ok
  createTable := fun _ => .ok
  insertRow := fun _ _ => .ok
  updateRow := fun _ _ => .ok
  selectOutcome := fun _ => .ok []
  queryOutcome := fun _ => .ok none
  completions := fun _ => .ok ⟨none, str "B"⟩
  completionsTools := fun _ => .ok ⟨none, str "T"⟩

/-- The seeded system message. -/
def sysMsg : Message := .chat (str "system") (str "S")

/-- A freshly-initialized session state. -/
def st0 : ChatState where
  ongoing := true
  use_tools := false
  default_table := str "user_primary"
  visit_cache := []
  search_cache := []
  command_buffer := []
  round_number := 0
  responses := []
  messages := [sysMsg]
  original_messages := [sysMsg]
  visit_prompt := str "VP "
  search_prompt := str "SP "
  infer_param := [(str "temperature", .pyint 1)]
  tool_dict := []
  lastDiagnostic := none
  fetchCalls := 0
  crawlLog := []
  completionCalls := 0

example : (handleSpecialCommands env0 (str "hello") st0).1 = .ok (.text (str "hello")) := by
  decide

example : (handleSpecialCommands env0 (str "\\search foo \\search bar") st0).1
    = .ok (.text (str " barfoo? ")) := by decide

example : (handleSpecialCommands env0 (str "\\visit file.txt") st0).1
    = .ok (.text (str "VP file.txt? FILECONTENT{Document} : FILECONTENT")) := by decide

example : (handleSpecialCommands env0 (str "\\visit file.txt") st0).2.fetchCalls = 1 := by decide

example : (handleSpecialCommands env0 (str "\\connect foo") st0).1
    = .ok (.control (.connectD (str "user_primary"))) := by decide

example : (apiChatOnce env0 (str "hi") true false false st0).1 = .ok (some true) := by decide

example : (apiChatOnce env0 (str "hi") true false false st0).2.messages.length = 3 := by decide

/-! ### Association-list lemmas -/

theorem dictGet_dictSet_self {α : Type} (d : List (Str × α)) (k : Str) (v : α) :
    dictGet (dictSet d k v) k = some v := by
  induction d with
  | nil => simp [dictGet, dictSet]
  | cons hd tl ih =>
    by_cases hk : hd.1 = k
    · simp [dictGet, dictSet, hk]
    · simpa [dictGet, dictSet, hk] using ih

theorem dictGet_dictSet_ne {α : Type} (d : List (Str × α)) {k k' : Str} (v : α)
    (h : k' ≠ k) : dictGet (dictSet d k v) k' = dictGet d k' := by
  induction d with
  | nil => simp [dictGet, dictSet, Ne.symm h]
  | cons hd tl ih =>
    by_cases hk : hd.1 = k
    · subst hk
      simp [dictGet, dictSet, Ne.symm h]
    · by_cases hk' : hd.1 = k'
      · simp [dictGet, dictSet, hk, hk', h]
      · simpa [dictGet, dictSet, hk, hk'] using ih

theorem dictSet_map_fst_of_get_some {α : Type} (d : List (Str × α)) {k : Str} {v : α}
    (h : dictGet d k = some v) (w : α) :
    (dictSet d k w).map Prod.fst = d.map Prod.fst := by
  induction d with
  | nil => simp [dictGet] at h
  | cons hd tl ih =>
    by_cases hk : hd.1 = k
    · simp [dictSet, hk]
    · simp only [dictGet, hk, if_false] at h
      simp [dictSet, hk, ih h]

/-- Reflexivity of the boolean prefix test. -/
theorem isPrefixOf_self (l : Str) : l.isPrefixOf l = true := by
  induction l with
  | nil => rfl
  | cons c t ih => simp [List.isPrefixOf, ih]

/-- A list is a boolean prefix of itself followed by anything. -/
theorem isPrefixOf_append (p r : Str) : p.isPrefixOf (p ++ r) = true := by
  induction p with
  | nil => cases r <;> rfl
  | cons c t ih => simp [List.isPrefixOf, ih]

/-! ### History preservation through the classifier helpers -/

/-- Both histories are returned untouched. -/
def histKeep (st st' : ChatState) : Prop :=
  st'.messages = st.messages ∧ st'.original_messages = st.original_messages

theorem histKeep_len {st st' : ChatState} (hk : histKeep st st')
    (h : st.messages.length = st.original_messages.length) :
    st'.messages.length = st'.original_messages.length := by
  rw [hk.1, hk.2]; exact h

theorem handleVisit_hist (env : Env) (s : Str) (st : ChatState) :
    histKeep st (handleVisit env s st).2 := by
  unfold handleVisit histKeep
  dsimp only
  repeat' split
  all_goals simp

theorem visitBare_hist (env : Env) (r : Str) (st : ChatState) :
    histKeep st (visitBare env r st).2 := by
  unfold visitBare
  dsimp only
  have hh := handleVisit_hist env (pyStrip r) st
  rcases hv : handleVisit env (pyStrip r) st with ⟨res, st1⟩
  rw [hv] at hh
  rcases res with e | c
  · simpa using hh
  · rcases c with _ | c <;> simpa using hh

theorem visitDelim_hist (env : Env) (vq cp : Str) (st : ChatState) :
    histKeep st (visitDelim env vq cp st).2 := by
  unfold visitDelim
  have hh := handleVisit_hist env vq st
  rcases hv : handleVisit env vq st with ⟨res, st1⟩
  rw [hv] at hh
  rcases res with e | c
  · simpa using hh
  · rcases c with _ | c <;> simpa using hh

theorem searchFetch_hist (env : Env) (c : Str) (st : ChatState) :
    histKeep st (searchFetch env c st).2 := by
  unfold searchFetch histKeep
  dsimp only
  repeat' split
  all_goals simp

theorem searchCore_hist (env : Env) (p c : Str) (st : ChatState) :
    histKeep st (searchCore env p c st).2 := by
  unfold searchCore
  have hh := searchFetch_hist env c st
  rcases hf : searchFetch env c st with ⟨res, st1⟩
  rw [hf] at hh
  rcases hg : dictGet st.search_cache c with _ | r
  · rcases res with e | r2 <;> simpa using hh
  · dsimp only
    by_cases hl : c.length > 0
    · simp [hl, histKeep]
    · rw [if_neg hl]
      rcases res with e | r2 <;> simpa using hh

theorem handleConnect_hist (env : Env) (t : Str) (st : ChatState) :
    histKeep st (handleConnect env t st).2 := by
  unfold handleConnect histKeep
  try dsimp only
  repeat' split
  all_goals simp

theorem handleLocate_hist (env : Env) (d t : Str) (st : ChatState) :
    histKeep st (handleLocate env d t st).2 := by
  unfold handleLocate histKeep handleError
  dsimp only
  repeat' split
  all_goals simp

theorem locateDelim_hist (env : Env) (db tb : Str) (st : ChatState) :
    histKeep st (locateDelim env db tb st).2 := by
  unfold locateDelim
  have hh := handleLocate_hist env db tb st
  rcases hf : handleLocate env db tb st with ⟨res, st1⟩
  rw [hf] at hh
  rcases res with e | u <;> simpa using hh

theorem connectBare_hist (env : Env) (st : ChatState) :
    histKeep st (connectBare env st).2 := by
  unfold connectBare
  have hh := handleConnect_hist env st.default_table st
  rcases hf : handleConnect env st.default_table st with ⟨res, st1⟩
  rw [hf] at hh
  rcases res with e | u <;> simpa using hh

theorem connectDelim_hist (env : Env) (tbl : Str) (st : ChatState) :
    histKeep st (connectDelim env tbl st).2 := by
  unfold connectDelim
  dsimp only
  have hh := handleConnect_hist env (pyStrip tbl) { st with default_table := pyStrip tbl }
  rcases hf : handleConnect env (pyStrip tbl) { st with default_table := pyStrip tbl } with ⟨res, st1⟩
  rw [hf] at hh
  rcases res with e | u
  · exact ⟨by simpa using hh.1, by simpa using hh.2⟩
  · exact ⟨by simpa using hh.1, by simpa using hh.2⟩

theorem selectDelim_hist (env : Env) (cls pr : Str) (st : ChatState) :
    histKeep st (selectDelim env cls pr st).2 := by
  unfold selectDelim histKeep handleError
  dsimp only
  repeat' split
  all_goals simp

theorem queryDelim_hist (env : Env) (qc pr : Str) (st : ChatState) :
    histKeep st (queryDelim env qc pr st).2 := by
  unfold queryDelim histKeep handleError
  dsimp only
  repeat' split
  all_goals simp

/-- A dispatch group preserves equality of the history lengths on every
branch it owns. -/
def optHistEq (o : DispatchRes) : Prop :=
  ∀ r, o = some r → r.2.messages.length = r.2.original_messages.length

theorem dispatchExact_histEq (env : Env) (lu : Str) (st : ChatState)
    (h : st.messages.length = st.original_messages.length) :
    optHistEq (dispatchExact env lu st) := by
  intro r hr
  unfold dispatchExact at hr
  repeat' split at hr
  all_goals try dsimp only at hr
  all_goals repeat' split at hr
  all_goals cases hr
  all_goals first
    | simpa using h
    | (simp only [List.length_take]; omega)
    | (simp_all; done)
    | (simp; done)

theorem dispatchVisit_histEq (env : Env) (u lu : Str) (st : ChatState)
    (h : st.messages.length = st.original_messages.length) :
    optHistEq (dispatchVisit env u lu st) := by
  intro r hr
  unfold dispatchVisit at hr
  repeat' split at hr
  all_goals cases hr
  all_goals first
    | with_reducible exact histKeep_len (visitBare_hist _ _ _) h
    | with_reducible exact histKeep_len (visitDelim_hist _ _ _ _) h
    | simpa [handleError] using h

theorem dispatchSearch_histEq (env : Env) (u lu : Str) (st : ChatState)
    (h : st.messages.length = st.original_messages.length) :
    optHistEq (dispatchSearch env u lu st) := by
  intro r hr
  unfold dispatchSearch at hr
  repeat' split at hr
  all_goals cases hr
  all_goals first
    | with_reducible exact histKeep_len (searchCore_hist _ _ _ _) h
    | simpa [handleError] using h

theorem dispatchLocate_histEq (env : Env) (u lu : Str) (st : ChatState)
    (h : st.messages.length = st.original_messages.length) :
    optHistEq (dispatchLocate env u lu st) := by
  intro r hr
  unfold dispatchLocate at hr
  repeat' split at hr
  all_goals cases hr
  all_goals first
    | with_reducible exact histKeep_len (locateDelim_hist _ _ _ _) h
    | simpa [handleError] using h

theorem dispatchConnect_histEq (env : Env) (u lu : Str) (st : ChatState)
    (h : st.messages.length = st.original_messages.length) :
    optHistEq (dispatchConnect env u lu st) := by
  intro r hr
  unfold dispatchConnect at hr
  repeat' split at hr
  all_goals cases hr
  all_goals first
    | with_reducible exact histKeep_len (connectBare_hist _ _) h
    | with_reducible exact histKeep_len (connectDelim_hist _ _ _) h
    | simpa [handleError] using h

theorem dispatchInsert_histEq (env : Env) (u lu : Str) (st : ChatState)
    (h : st.messages.length = st.original_messages.length) :
    optHistEq (dispatchInsert env u lu st) := by
  intro r hr
  unfold dispatchInsert at hr
  repeat' split at hr
  all_goals cases hr
  all_goals first
    | simpa using h
    | simpa [handleError] using h

theorem dispatchUpdate_histEq (env : Env) (u lu : Str) (st : ChatState)
    (h : st.messages.length = st.original_messages.length) :
    optHistEq (dispatchUpdate env u lu st) := by
  intro r hr
  unfold dispatchUpdate at hr
  repeat' split at hr
  all_goals cases hr
  all_goals first
    | simpa using h
    | simpa [handleError] using h

theorem dispatchSelect_histEq (env : Env) (u lu : Str) (st : ChatState)
    (h : st.messages.length = st.original_messages.length) :
    optHistEq (dispatchSelect env u lu st) := by
  intro r hr
  unfold dispatchSelect at hr
  repeat' split at hr
  all_goals cases hr
  all_goals first
    | with_reducible exact histKeep_len (selectDelim_hist _ _ _ _) h
    | simpa [handleError] using h

theorem dispatchQuery_histEq (env : Env) (u lu : Str) (st : ChatState)
    (h : st.messages.length = st.original_messages.length) :
    optHistEq (dispatchQuery env u lu st) := by
  intro r hr
  unfold dispatchQuery at hr
  repeat' split at hr
  all_goals cases hr
  all_goals first
    | with_reducible exact histKeep_len (queryDelim_hist _ _ _ _) h
    | simpa [handleError] using h

/-- The full branch chain preserves equality of the two history lengths,
whether it returns or raises: only the delete commands touch the histories,
and they truncate both in step. -/
theorem dispatchCommand_histEq (env : Env) (u lu : Str) (st : ChatState)
    (h : st.messages.length = st.original_messages.length) :
    ((dispatchCommand env u lu st).2).messages.length
      = ((dispatchCommand env u lu st).2).original_messages.length := by
  unfold dispatchCommand
  rcases hg1 : dispatchExact env lu st with _ | r1
  case some => exact dispatchExact_histEq env lu st h r1 hg1
  rcases hg2 : dispatchVisit env u lu st with _ | r2
  case some => exact dispatchVisit_histEq env u lu st h r2 hg2
  rcases hg3 : dispatchSearch env u lu st with _ | r3
  case some => exact dispatchSearch_histEq env u lu st h r3 hg3
  rcases hg4 : dispatchLocate env u lu st with _ | r4
  case some => exact dispatchLocate_histEq env u lu st h r4 hg4
  rcases hg5 : dispatchConnect env u lu st with _ | r5
  case some => exact dispatchConnect_histEq env u lu st h r5 hg5
  rcases hg6 : dispatchInsert env u lu st with _ | r6
  case some => exact dispatchInsert_histEq env u lu st h r6 hg6
  rcases hg7 : dispatchUpdate env u lu st with _ | r7
  case some => exact dispatchUpdate_histEq env u lu st h r7 hg7
  rcases hg8 : dispatchSelect env u lu st with _ | r8
  case some => exact dispatchSelect_histEq env u lu st h r8 hg8
  rcases hg9 : dispatchQuery env u lu st with _ | r9
  case some => exact dispatchQuery_histEq env u lu st h r9 hg9
  exact h

/-- The classifier preserves equality of the two history lengths. -/
theorem handleSpecialCommands_histEq (env : Env) (s : Str) (st : ChatState)
    (h : st.messages.length = st.original_messages.length) :
    ((handleSpecialCommands env s st).2).messages.length
      = ((handleSpecialCommands env s st).2).original_messages.length := by
  unfold handleSpecialCommands
  exact dispatchCommand_histEq env _ _ _ (by simpa using h)


/-! ### History-length preservation through the round lifecycle -/

/-- The tool loop appends its tool message to both histories in step, so it
preserves equality of their lengths on every outcome, raised or returned. -/
theorem handleTriggeredToolCalls_histEq (stt : List (Str × ToolFn))
    (l : List ToolCall) (acc : ToolLoopVal) (st : ChatState)
    (h : st.messages.length = st.original_messages.length) :
    ((handleTriggeredToolCalls stt l acc st).2).messages.length
      = ((handleTriggeredToolCalls stt l acc st).2).original_messages.length := by
  induction l generalizing acc st with
  | nil => simpa [handleTriggeredToolCalls] using h
  | cons tc rest ih =>
    unfold handleTriggeredToolCalls
    dsimp only
    repeat' split
    all_goals first
      | exact ih _ _ h
      | simpa using h
      | (apply ih; simp [h])

/-- Equation-driven form of the tool-loop preservation lemma. -/
theorem handleTriggeredToolCalls_histEq2 {stt : List (Str × ToolFn)}
    {l : List ToolCall} {acc : ToolLoopVal} {st : ChatState}
    {res : Except Err ToolLoopVal} {st3 : ChatState}
    (heq : handleTriggeredToolCalls stt l acc st = (res, st3))
    (h : st.messages.length = st.original_messages.length) :
    st3.messages.length = st3.original_messages.length := by
  have hx := handleTriggeredToolCalls_histEq stt l acc st h
  rw [heq] at hx
  exact hx

theorem toolPhase_histEq (env : Env) (calls : List ToolCall) (st1 : ChatState)
    (h : st1.messages.length = st1.original_messages.length) :
    ((toolPhase env calls st1).2).messages.length
      = ((toolPhase env calls st1).2).original_messages.length := by
  unfold toolPhase
  dsimp only
  split
  · rename_i e st3 heq
    simpa using handleTriggeredToolCalls_histEq2 heq (by simp [h])
  · rename_i st3 heq
    simpa using handleTriggeredToolCalls_histEq2 heq (by simp [h])
  · rename_i st3 heq
    simpa using handleTriggeredToolCalls_histEq2 heq (by simp [h])
  · rename_i r2 st3 heq
    have h3 := handleTriggeredToolCalls_histEq2 heq (by simp [h])
    split
    · simpa using h3
    · split <;> simpa using h3

theorem requestOnetimeResponse_histEq (env : Env) (st : ChatState)
    (h : st.messages.length = st.original_messages.length) :
    ((requestOnetimeResponse env st).2).messages.length
      = ((requestOnetimeResponse env st).2).original_messages.length := by
  unfold requestOnetimeResponse
  dsimp only
  repeat' split
  all_goals first
    | simpa using h
    | (with_reducible apply toolPhase_histEq) <;> simpa using h

theorem processResponse_histEq (c : Str) (b : Bool) (st : ChatState)
    (h : st.messages.length = st.original_messages.length) :
    (processResponse c b st).messages.length
      = (processResponse c b st).original_messages.length := by
  unfold processResponse
  split
  · simpa using h
  · exact h

/-- Equation-driven form of the classifier preservation lemma. -/
theorem handleSpecialCommands_histEq2 {env : Env} {s : Str} {st : ChatState}
    {r : Except Err CmdResult} {st1 : ChatState}
    (heq : handleSpecialCommands env s st = (r, st1))
    (h : st.messages.length = st.original_messages.length) :
    st1.messages.length = st1.original_messages.length := by
  have hx := handleSpecialCommands_histEq env s st h
  rw [heq] at hx
  exact hx

/-- Equation-driven form of the completion-request preservation lemma. -/
theorem requestOnetimeResponse_histEq2 {env : Env} {st : ChatState}
    {r : Except Err (Option (List ToolCall) × Str)} {st1 : ChatState}
    (heq : requestOnetimeResponse env st = (r, st1))
    (h : st.messages.length = st.original_messages.length) :
    st1.messages.length = st1.original_messages.length := by
  have hx := requestOnetimeResponse_histEq env st h
  rw [heq] at hx
  exact hx

/-- One full call of api_chat_once preserves equality of the two history
lengths, on every control path: control rounds, chat rounds, tool rounds,
caught completion faults, and propagated classifier faults alike. -/
theorem apiChatOnce_histEq (env : Env) (userInput : Str) (chat : Bool)
    (appendInputFront appendControlResponse : Bool) (st : ChatState)
    (h : st.messages.length = st.original_messages.length) :
    ((apiChatOnce env userInput chat appendInputFront appendControlResponse st).2).messages.length
      = ((apiChatOnce env userInput chat appendInputFront appendControlResponse st).2).original_messages.length := by
  unfold apiChatOnce
  split
  · rename_i e st1 heq
    simpa using handleSpecialCommands_histEq2 heq h
  · rename_i st1 heq
    simpa using handleSpecialCommands_histEq2 heq h
  · rename_i d st1 heq
    have h1 := handleSpecialCommands_histEq2 heq h
    dsimp only
    by_cases haif : appendInputFront = true
    all_goals simp only [haif, if_true, if_false]
    all_goals split
    all_goals first
      | simpa using h1
      | simpa using processResponse_histEq _ _ _ (by simp [h1])
  · rename_i p st1 heq
    have h1 := handleSpecialCommands_histEq2 heq h
    dsimp only
    split
    · simpa using h1
    · split
      · rename_i e st3 heq2
        simpa [handleError] using requestOnetimeResponse_histEq2 heq2 (by simp [h1])
      · rename_i tcs resp st3 heq2
        have h3 := requestOnetimeResponse_histEq2 heq2 (by simp [h1])
        split
        · simpa [handleError] using h3
        · simpa using processResponse_histEq _ _ _ (by simp [h3])

/-! ### Lemmas for infer_params_set -/

theorem inferStep_map_fst (cur : List (Str × PyVal)) (kv : Str × PyVal) :
    (inferStep cur kv).map Prod.fst = cur.map Prod.fst := by
  unfold inferStep
  split
  · rfl
  · rename_i v hne heq
    exact dictSet_map_fst_of_get_some cur heq kv.2
  · rfl

theorem inferStep_get_ne (cur : List (Str × PyVal)) (kv : Str × PyVal) (k : Str)
    (hk : k ≠ kv.1) : dictGet (inferStep cur kv) k = dictGet cur k := by
  unfold inferStep
  split
  · rfl
  · exact dictGet_dictSet_ne cur kv.2 hk
  · rfl

theorem infer_foldl_map_fst (d : List (Str × PyVal)) (cur : List (Str × PyVal)) :
    (d.foldl inferStep cur).map Prod.fst = cur.map Prod.fst := by
  induction d generalizing cur with
  | nil => rfl
  | cons kv rest ih =>
    rw [List.foldl_cons, ih, inferStep_map_fst]

theorem infer_foldl_get (d : List (Str × PyVal)) (cur : List (Str × PyVal)) (k : Str)
    (hk : k ∉ d.map Prod.fst) :
    dictGet (d.foldl inferStep cur) k = dictGet cur k := by
  induction d generalizing cur with
  | nil => rfl
  | cons kv rest ih =>
    rw [List.map_cons, List.mem_cons] at hk
    push_neg at hk
    rw [List.foldl_cons, ih (inferStep cur kv) hk.2, inferStep_get_ne cur kv k hk.1]

/-! ### The claims -/

/-- C1: the canonical history (messages) and the display history
(original_messages) have equal length at the start of every round: from any
session state in which the two histories have equal length, any single call
of api_chat_once, for any input (plain text, augmented prompt, control
descriptor, or error descriptor) and any completion behavior (success, tool
calls, or a raised exception), again leaves the two histories with equal
length. -/
theorem claim_C1 (env : Env) (userInput : Str)
    (chat appendInputFront appendControlResponse : Bool) (st : ChatState)
    (h : st.messages.length = st.original_messages.length) :
    ((apiChatOnce env userInput chat appendInputFront appendControlResponse st).2).messages.length
      = ((apiChatOnce env userInput chat appendInputFront appendControlResponse st).2).original_messages.length :=
  apiChatOnce_histEq env userInput chat appendInputFront appendControlResponse st h

/-- Witness for C1 at a concrete environment, input and state. -/
theorem claim_C1_witness :
    st0.messages.length = st0.original_messages.length
    ∧ ((apiChatOnce env0 (str "hi") true false false st0).2).messages.length
        = ((apiChatOnce env0 (str "hi") true false false st0).2).original_messages.length :=
  ⟨by decide, claim_C1 env0 (str "hi") true false false st0 (by decide)⟩

/-- C5: export followed by import is the identity on session state: saving
via save_messages and loading the saved record via load_messages reproduces
a structurally equal (canonical messages, display messages, responses)
triple, whatever state the record is loaded into. -/
theorem claim_C5 (st stx : ChatState) :
    (load_messages (save_messages st) stx).messages = st.messages
    ∧ (load_messages (save_messages st) stx).original_messages = st.original_messages
    ∧ (load_messages (save_messages st) stx).responses = st.responses := by
  unfold load_messages save_messages
  simp

/-- C10: infer_params_set never enlarges the inference-parameter
configuration: the key list is unchanged (so in particular the key set),
and every key absent from the argument dict keeps its previous value. -/
theorem claim_C10 (st : ChatState) (d : List (Str × PyVal)) :
    (infer_params_set st d).infer_param.map Prod.fst = st.infer_param.map Prod.fst
    ∧ ∀ k, k ∉ d.map Prod.fst →
        dictGet (infer_params_set st d).infer_param k = dictGet st.infer_param k := by
  unfold infer_params_set
  exact ⟨infer_foldl_map_fst d st.infer_param,
         fun k hk => infer_foldl_get d st.infer_param k hk⟩

/-- Witness for C10: a concrete update leaves the untouched key intact. -/
theorem claim_C10_witness :
    ((infer_params_set st0 [(str "temperature", PyVal.pyint 2)]).infer_param.map Prod.fst
        = st0.infer_param.map Prod.fst)
    ∧ ((str "top_p") ∉ ([(str "temperature", PyVal.pyint 2)].map Prod.fst)
        ∧ dictGet (infer_params_set st0 [(str "temperature", PyVal.pyint 2)]).infer_param (str "top_p")
            = dictGet st0.infer_param (str "top_p")) :=
  ⟨(claim_C10 st0 [(str "temperature", PyVal.pyint 2)]).1,
   by decide,
   (claim_C10 st0 [(str "temperature", PyVal.pyint 2)]).2 (str "top_p") (by decide)⟩

/-! ### Prefix_dismissal helpers for the classifier branch guards -/

theorem not_or_of_prefix_false {l a b : Str}
    (ha : a.isPrefixOf l = false) (hb : b.isPrefixOf l = false) :
    ¬(l = a ∨ l = b) := by
  rintro (rfl | rfl)
  · rw [isPrefixOf_self] at ha; cases ha
  · rw [isPrefixOf_self] at hb; cases hb

theorem not_and_first {b : Bool} {Q : Prop} (h : b = false) : ¬(b = true ∧ Q) := by
  simp [h]

/-- No recognized command prefix, in either the single- or double-backslash
form, begins the (lowercased, normalized) input. -/
abbrev noCommandPrefix (l : Str) : Prop :=
  ((str "\\quit").isPrefixOf l = false) ∧ ((str "\\\\quit").isPrefixOf l = false)
  ∧ ((str "\\syntax").isPrefixOf l = false) ∧ ((str "\\\\syntax").isPrefixOf l = false)
  ∧ ((str "\\delete").isPrefixOf l = false) ∧ ((str "\\\\delete").isPrefixOf l = false)
  ∧ ((str "\\deleteall").isPrefixOf l = false) ∧ ((str "\\\\deleteall").isPrefixOf l = false)
  ∧ ((str "\\toolcall").isPrefixOf l = false) ∧ ((str "\\\\toolcall").isPrefixOf l = false)
  ∧ ((str "\\visit").isPrefixOf l = false) ∧ ((str "\\\\visit").isPrefixOf l = false)
  ∧ ((str "\\search").isPrefixOf l = false) ∧ ((str "\\\\search").isPrefixOf l = false)
  ∧ ((str "\\connect").isPrefixOf l = false) ∧ ((str "\\\\connect").isPrefixOf l = false)
  ∧ ((str "\\locate").isPrefixOf l = false) ∧ ((str "\\\\locate").isPrefixOf l = false)
  ∧ ((str "\\insert").isPrefixOf l = false) ∧ ((str "\\\\insert").isPrefixOf l = false)
  ∧ ((str "\\update").isPrefixOf l = false) ∧ ((str "\\\\update").isPrefixOf l = false)
  ∧ ((str "\\select").isPrefixOf l = false) ∧ ((str "\\\\select").isPrefixOf l = false)
  ∧ ((str "\\query").isPrefixOf l = false) ∧ ((str "\\\\query").isPrefixOf l = false)

theorem dispatchExact_none_of_noPrefix (env : Env) {lu : Str} (st : ChatState)
    (hn : noCommandPrefix lu) : dispatchExact env lu st = none := by
  obtain ⟨h1, h2, h3, h4, h5, h6, h7, h8, h9, h10, _⟩ := hn
  unfold dispatchExact
  rw [if_neg (not_or_of_prefix_false h1 h2), if_neg (not_or_of_prefix_false h3 h4),
      if_neg (not_or_of_prefix_false h5 h6), if_neg (not_or_of_prefix_false h7 h8),
      if_neg (not_or_of_prefix_false h9 h10)]

theorem dispatchVisit_none_of_noPrefix (env : Env) {u lu : Str} (st : ChatState)
    (hn : noCommandPrefix lu) : dispatchVisit env u lu st = none := by
  obtain ⟨_, _, _, _, _, _, _, _, _, _, h11, h12, _⟩ := hn
  unfold dispatchVisit
  rw [if_neg (not_and_first h11), if_neg (not_and_first h12),
      if_neg (not_and_first h11), if_neg (not_and_first h12)]

theorem dispatchSearch_none_of_noPrefix (env : Env) {u lu : Str} (st : ChatState)
    (hn : noCommandPrefix lu) : dispatchSearch env u lu st = none := by
  obtain ⟨_, _, _, _, _, _, _, _, _, _, _, _, h13, h14, _⟩ := hn
  unfold dispatchSearch
  rw [if_neg (not_and_first h13), if_neg (not_and_first h14),
      if_neg (not_and_first h13), if_neg (not_and_first h14)]

theorem dispatchLocate_none_of_noPrefix (env : Env) {u lu : Str} (st : ChatState)
    (hn : noCommandPrefix lu) : dispatchLocate env u lu st = none := by
  obtain ⟨_, _, _, _, _, _, _, _, _, _, _, _, _, _, _, _, h17, h18, _⟩ := hn
  unfold dispatchLocate
  rw [if_neg (not_and_first h17), if_neg (not_and_first h18)]

theorem dispatchConnect_none_of_noPrefix (env : Env) {u lu : Str} (st : ChatState)
    (hn : noCommandPrefix lu) : dispatchConnect env u lu st = none := by
  obtain ⟨_, _, _, _, _, _, _, _, _, _, _, _, _, _, h15, h16, _⟩ := hn
  unfold dispatchConnect
  rw [if_neg (not_and_first h15), if_neg (not_and_first h16),
      if_neg (not_and_first h15), if_neg (not_and_first h16)]

theorem dispatchInsert_none_of_noPrefix (env : Env) {u lu : Str} (st : ChatState)
    (hn : noCommandPrefix lu) : dispatchInsert env u lu st = none := by
  obtain ⟨_, _, _, _, _, _, _, _, _, _, _, _, _, _, _, _, _, _, h19, h20, _⟩ := hn
  unfold dispatchInsert
  rw [if_neg (not_and_first h19), if_neg (not_and_first h20)]

theorem dispatchUpdate_none_of_noPrefix (env : Env) {u lu : Str} (st : ChatState)
    (hn : noCommandPrefix lu) : dispatchUpdate env u lu st = none := by
  obtain ⟨_, _, _, _, _, _, _, _, _, _, _, _, _, _, _, _, _, _, _, _, h21, h22, _⟩ := hn
  unfold dispatchUpdate
  rw [if_neg (not_and_first h21), if_neg (not_and_first h22)]

theorem dispatchSelect_none_of_noPrefix (env : Env) {u lu : Str} (st : ChatState)
    (hn : noCommandPrefix lu) : dispatchSelect env u lu st = none := by
  obtain ⟨_, _, _, _, _, _, _, _, _, _, _, _, _, _, _, _, _, _, _, _, _, _, h23, h24, _⟩ := hn
  unfold dispatchSelect
  rw [if_neg (not_and_first h23), if_neg (not_and_first h24)]

theorem dispatchQuery_none_of_noPrefix (env : Env) {u lu : Str} (st : ChatState)
    (hn : noCommandPrefix lu) : dispatchQuery env u lu st = none := by
  obtain ⟨_, _, _, _, _, _, _, _, _, _, _, _, _, _, _, _, _, _, _, _, _, _, _, _, h25, h26⟩ := hn
  unfold dispatchQuery
  rw [if_neg (not_and_first h25), if_neg (not_and_first h26)]

/-- C3: any input that, after trimming and the four-backslash
normalization, starts with no recognized command prefix (in either
backslash form, case-insensitively) passes through the classifier
unchanged as plain text; the only state effect is the buffer clear. -/
theorem claim_C3 (env : Env) (st : ChatState) (s : Str)
    (hn : noCommandPrefix (pyLower (normalizeInput s))) :
    handleSpecialCommands env s st
      = (.ok (.text (normalizeInput s)), { st with command_buffer := [] }) := by
  unfold handleSpecialCommands dispatchCommand
  dsimp only
  rw [dispatchExact_none_of_noPrefix env _ hn]
  rw [dispatchVisit_none_of_noPrefix env _ hn]
  rw [dispatchSearch_none_of_noPrefix env _ hn]
  rw [dispatchLocate_none_of_noPrefix env _ hn]
  rw [dispatchConnect_none_of_noPrefix env _ hn]
  rw [dispatchInsert_none_of_noPrefix env _ hn]
  rw [dispatchUpdate_none_of_noPrefix env _ hn]
  rw [dispatchSelect_none_of_noPrefix env _ hn]
  rw [dispatchQuery_none_of_noPrefix env _ hn]

/-- Witness for C3: an unprefixed concrete input is passed through. -/
theorem claim_C3_witness :
    noCommandPrefix (pyLower (normalizeInput (str "hello world")))
    ∧ handleSpecialCommands env0 (str "hello world") st0
        = (.ok (.text (normalizeInput (str "hello world"))),
           { st0 with command_buffer := [] }) :=
  ⟨by decide, claim_C3 env0 st0 (str "hello world") (by decide)⟩

/-! ### C4: the delete commands -/

/-- A state whose histories are unequal: canonical has one message, display
has two.  Both lengths are at least 1, as the claim requires. -/
def stC4 : ChatState :=
  { st0 with original_messages := [sysMsg, Message.chat (str "user") (str "x")] }

/-- Counterexample to C4 as stated: with canonical history of length 1 and
display history of length 2, processing the input backslash-delete leaves
the display history at length 2, not 1 (the source truncates both histories
only when the canonical history is longer than 1, chatloop.py lines
826-832). -/
theorem claim_C4_counterexample :
    stC4.messages.length = 1 ∧ stC4.original_messages.length = 2
    ∧ (handleSpecialCommands env0 (str "\\delete") stC4).1
        = .ok (.control .deleteD)
    ∧ ((handleSpecialCommands env0 (str "\\delete") stC4).2).original_messages.length = 2
    ∧ ((handleSpecialCommands env0 (str "\\delete") stC4).2).original_messages.length ≠ 1 := by
  decide

/-- C4 as amended: for every session whose two histories have EQUAL length
at least 1, processing backslash-delete or backslash-deleteall truncates
both histories to exactly their first (system) message and returns the
respective control descriptor. -/
theorem claim_C4_amended (env : Env) (st : ChatState)
    (h : st.messages.length = st.original_messages.length)
    (hge : 1 ≤ st.messages.length) :
    (handleSpecialCommands env (str "\\delete") st).1 = .ok (.control .deleteD)
    ∧ ((handleSpecialCommands env (str "\\delete") st).2).messages = st.messages.take 1
    ∧ ((handleSpecialCommands env (str "\\delete") st).2).original_messages
        = st.original_messages.take 1
    ∧ (handleSpecialCommands env (str "\\deleteall") st).1 = .ok (.control .deleteallD)
    ∧ ((handleSpecialCommands env (str "\\deleteall") st).2).messages = st.messages.take 1
    ∧ ((handleSpecialCommands env (str "\\deleteall") st).2).original_messages
        = st.original_messages.take 1 := by
  have hdel :
      (handleSpecialCommands env (str "\\delete") st).1 = .ok (.control .deleteD)
      ∧ ((handleSpecialCommands env (str "\\delete") st).2).messages = st.messages.take 1
      ∧ ((handleSpecialCommands env (str "\\delete") st).2).original_messages
          = st.original_messages.take 1 := by
    unfold handleSpecialCommands dispatchCommand dispatchExact
    dsimp only
    rw [if_neg (by decide), if_neg (by decide), if_pos (by decide)]
    by_cases hl : st.messages.length > 1
    · rw [if_pos hl]
      exact ⟨rfl, rfl, rfl⟩
    · rw [if_neg hl]
      have h1 : st.messages.length = 1 := le_antisymm (not_lt.mp hl) hge
      have h2 : st.original_messages.length = 1 := by rw [← h]; exact h1
      refine ⟨rfl, ?_, ?_⟩
      · exact (List.take_of_length_le (le_of_eq h1)).symm
      · exact (List.take_of_length_le (le_of_eq h2)).symm
  have hall :
      (handleSpecialCommands env (str "\\deleteall") st).1 = .ok (.control .deleteallD)
      ∧ ((handleSpecialCommands env (str "\\deleteall") st).2).messages = st.messages.take 1
      ∧ ((handleSpecialCommands env (str "\\deleteall") st).2).original_messages
          = st.original_messages.take 1 := by
    unfold handleSpecialCommands dispatchCommand dispatchExact
    dsimp only
    rw [if_neg (by decide), if_neg (by decide), if_neg (by decide), if_pos (by decide)]
    rcases hm : st.messages with _ | ⟨m, tl⟩
    · rw [hm] at hge
      simp at hge
    · rcases ho : st.original_messages with _ | ⟨o, tl2⟩
      · rw [hm, ho] at h
        simp at h
      · simp [hm, ho]
  exact ⟨hdel.1, hdel.2.1, hdel.2.2, hall.1, hall.2.1, hall.2.2⟩

/-- A session with two messages in each history. -/
def stC4w : ChatState :=
  { st0 with messages := [sysMsg, Message.chat (str "user") (str "u")],
             original_messages := [sysMsg, Message.chat (str "user") (str "u")] }

/-- Witness for the amended C4 at a concrete two-message session. -/
theorem claim_C4_witness :
    stC4w.messages.length = stC4w.original_messages.length
    ∧ 1 ≤ stC4w.messages.length
    ∧ ((handleSpecialCommands env0 (str "\\delete") stC4w).2).messages
        = stC4w.messages.take 1
    ∧ ((handleSpecialCommands env0 (str "\\deleteall") stC4w).2).original_messages
        = stC4w.original_messages.take 1 :=
  ⟨by decide, by decide,
   (claim_C4_amended env0 stC4w (by decide) (by decide)).2.1,
   (claim_C4_amended env0 stC4w (by decide) (by decide)).2.2.2.2.2⟩

/-! ### C9: a delimited command missing its closing token -/

/-- Counterexample to C9 as stated: backslash-connect foo with no second
connect token is treated as the BARE connect form (chatloop.py line 1090),
returning a successful connect-to-default-table descriptor, not an error
control descriptor.  The histories are indeed unmutated. -/
theorem claim_C9_counterexample :
    (handleSpecialCommands env0 (str "\\connect foo") st0).1
        = .ok (.control (.connectD (str "user_primary")))
    ∧ (handleSpecialCommands env0 (str "\\connect foo") st0).1
        ≠ .ok (.control .emptyD)
    ∧ ((handleSpecialCommands env0 (str "\\connect foo") st0).2).messages = st0.messages
    ∧ ((handleSpecialCommands env0 (str "\\connect foo") st0).2).original_messages
        = st0.original_messages := by
  decide

/-- C9 as amended: an error control descriptor arises from a delimited
command whose token occurrences split the input into a segment count other
than three, for example backslash-connect appearing three times; both
histories are left unmutated.  (The input from the original claim instead
resolves to the bare connect form, as the counterexample shows.) -/
theorem claim_C9_amended (env : Env) (st : ChatState) :
    (handleSpecialCommands env (str "\\connect a \\connect b \\connect c") st).1
        = .ok (.control .emptyD)
    ∧ ((handleSpecialCommands env (str "\\connect a \\connect b \\connect c") st).2).messages
        = st.messages
    ∧ ((handleSpecialCommands env (str "\\connect a \\connect b \\connect c") st).2).original_messages
        = st.original_messages :=
  ⟨rfl, rfl, rfl⟩

/-! ### C2: fault containment -/

/-- An environment whose address resolver raises, as visitor.is_file does
through urlparse on a malformed address. -/
def envC2 : Env :=
  { env0 with classify := fun _ => .error (str "ValueError: Invalid IPv6 URL") }

/-- Counterexample to C2 as stated: a fault raised by the address resolver
during command classification propagates out of api_chat_once (the
classifier runs before the try block of chatloop.py line 1620), and the
round counter does not advance. -/
theorem claim_C2_counterexample :
    (apiChatOnce envC2 (str "\\visit addr") true false false st0).1
        = .error (str "ValueError: Invalid IPv6 URL")
    ∧ ((apiChatOnce envC2 (str "\\visit addr") true false false st0).2).round_number
        = st0.round_number := by
  decide

/-- C2 as amended: a fault raised by the completion service during the chat
phase is caught inside api_chat_once, recorded as a diagnostic, and the
round counter still advances; faults raised by the crawler or resolver
during command classification instead propagate out of api_chat_once, as
the counterexample shows.  Stated here for a text-classified input with
tool-calling disabled. -/
theorem claim_C2_amended (env : Env) (s p e : Str) (st st1 : ChatState) (b : Bool)
    (hsc : handleSpecialCommands env s st = (.ok (.text p), st1))
    (hu : st1.use_tools = false)
    (hcomp : env.completions st1.completionCalls = .error e) :
    (apiChatOnce env s true false b st).1 = .ok none
    ∧ ((apiChatOnce env s true false b st).2).round_number = st1.round_number + 1
    ∧ ((apiChatOnce env s true false b st).2).lastDiagnostic = some e := by
  unfold apiChatOnce
  rw [hsc]
  dsimp only
  unfold requestOnetimeResponse
  dsimp only
  rw [if_pos hu, hcomp]
  dsimp only [handleError]
  exact ⟨rfl, rfl, rfl⟩

/-- An environment whose completion service raises. -/
def envErr : Env := { env0 with completions := fun _ => .error (str "ConnectionError") }

/-- Witness for the amended C2 on a concrete raising completion service. -/
theorem claim_C2_witness :
    (apiChatOnce envErr (str "hi") true false false st0).1 = .ok none
    ∧ ((apiChatOnce envErr (str "hi") true false false st0).2).round_number
        = ({ st0 with command_buffer := [] } : ChatState).round_number + 1
    ∧ ((apiChatOnce envErr (str "hi") true false false st0).2).lastDiagnostic
        = some (str "ConnectionError") :=
  claim_C2_amended envErr (str "hi") (str "hi") (str "ConnectionError")
    st0 { st0 with command_buffer := [] } false rfl rfl rfl

/-! ### C8: the delimited search example -/

/-- Counterexample to C8 as stated: on the delimited input the custom
prompt segment is the raw split remainder, which keeps the space after the
second search token, so the returned augmented prompt begins with a space
and is NOT prefixed with "bar" (chatloop.py line 1022 concatenates the raw
segment).  One crawl call with query "foo" does occur. -/
theorem claim_C8_counterexample :
    (handleSpecialCommands env0 (str "\\search foo \\search bar") st0).1
        = .ok (.text (str " barfoo? "))
    ∧ (str "bar").isPrefixOf (str " barfoo? ") = false
    ∧ ((handleSpecialCommands env0 (str "\\search foo \\search bar") st0).2).crawlLog
        = [str "foo"] := by
  decide

/-- C8 as amended: processing the delimited search input against an empty
search cache triggers exactly one crawl call, with clean query "foo", and
the resulting augmented prompt is the raw prompt segment " bar" (the
delimiter space retained), then "foo? ", then the concatenated documents —
so it is prefixed with " bar", not "bar". -/
theorem claim_C8_amended (env : Env) (st : ChatState) (docs : SearchRes)
    (hcache : st.search_cache = [])
    (hcrawl : env.crawlSearch (str "foo") = .ok docs) :
    (handleSpecialCommands env (str "\\search foo \\search bar") st).1
        = .ok (.text (str " bar" ++ str "foo" ++ str "? " ++ env.concatRes docs))
    ∧ (str " bar").isPrefixOf
        (str " bar" ++ str "foo" ++ str "? " ++ env.concatRes docs) = true
    ∧ ((handleSpecialCommands env (str "\\search foo \\search bar") st).2).crawlLog
        = st.crawlLog ++ [str "foo"] := by
  have hred : handleSpecialCommands env (str "\\search foo \\search bar") st
      = searchCore env (str " bar") (str "foo") { st with command_buffer := [] } := rfl
  rw [hred]
  unfold searchCore searchFetch
  dsimp only
  rw [hcache]
  dsimp only [dictGet]
  rw [hcrawl]
  refine ⟨rfl, ?_, by simp⟩
  simp only [List.append_assoc]
  exact isPrefixOf_append _ _

/-- Witness for the amended C8 at a concrete environment and fresh state. -/
theorem claim_C8_witness :
    st0.search_cache = []
    ∧ env0.crawlSearch (str "foo") = .ok []
    ∧ (handleSpecialCommands env0 (str "\\search foo \\search bar") st0).1
        = .ok (.text (str " bar" ++ str "foo" ++ str "? " ++ env0.concatRes []))
    ∧ ((handleSpecialCommands env0 (str "\\search foo \\search bar") st0).2).crawlLog
        = st0.crawlLog ++ [str "foo"] :=
  ⟨rfl, rfl, (claim_C8_amended env0 st0 [] rfl rfl).1,
   (claim_C8_amended env0 st0 [] rfl rfl).2.2⟩

/-! ### C6: the direct-response tool short-circuit -/

/-- A tool handler whose result carries the direct "response" field. -/
def toolFnA : ToolFn := fun _ => .ok ⟨some (str "A"), str "RA"⟩

/-- A tool handler whose result has no direct "response" field. -/
def toolFnB : ToolFn := fun _ => .ok ⟨none, str "RB"⟩

/-- Two well-formed tool invocations naming the two handlers. -/
def tcA : ToolCall := ⟨str "1", str "function", str "a", .ok (str "argsA")⟩

def tcB : ToolCall := ⟨str "2", str "function", str "b", .ok (str "argsB")⟩

/-- A session with tool-calling enabled and both handlers registered. -/
def stC6 : ChatState :=
  { st0 with use_tools := true,
             tool_dict := [(str "a", toolFnA), (str "b", toolFnB)] }

/-- An environment whose first (tools) completion requests invocations of
both handlers, in the order A then B, and whose follow-up completion
returns content "B". -/
def envC6 : Env :=
  { env0 with
    completionsTools := fun _ => .ok ⟨some [tcA, tcB], str ""⟩,
    completions := fun _ => .ok ⟨none, str "B"⟩ }

/-- Counterexample to C6 as stated: the completion response carries an
invocation (the first) whose handler returns a direct "response" field
"A", yet the round issues TWO completion requests and its final content is
"B", because the source keeps only the LAST iteration value of `result`
(chatloop.py line 1690 reassigns it each pass) and the last handler result
has no "response" field. -/
theorem claim_C6_counterexample :
    ((apiChatOnce envC6 (str "hi") true false false stC6).2).completionCalls = 2
    ∧ ((apiChatOnce envC6 (str "hi") true false false stC6).2).completionCalls ≠ 1
    ∧ ((apiChatOnce envC6 (str "hi") true false false stC6).2).responses.getLast?
        = some (ToolsSlot.noneS, str "B")
    ∧ (((apiChatOnce envC6 (str "hi") true false false stC6).2).responses.getLast?).map
        Prod.snd ≠ some (str "A") := by
  decide

/-- C6 as amended: the short-circuit keys on the LAST processed invocation;
in particular, when tool-calling is enabled and the completion response
carries exactly one invocation whose handler returns a result with a
direct "response" field, the round ends with that value as its final
content (last response entry and last assistant message) and exactly one
completion request is issued. -/
theorem claim_C6_amended (env : Env) (s p content a v : Str)
    (st st1 : ChatState) (tc : ToolCall) (f : ToolFn) (r : ToolRes) (b : Bool)
    (hsc : handleSpecialCommands env s st = (.ok (.text p), st1))
    (hu : st1.use_tools = true)
    (hcomp : env.completionsTools st1.completionCalls = .ok ⟨some [tc], content⟩)
    (htype : tc.type = str "function")
    (hargs : tc.arguments = .ok a)
    (hname : dictGet st1.tool_dict tc.name = some f)
    (hrun : f a = .ok r)
    (hresp : r.responseField = some v) :
    (apiChatOnce env s true false b st).1 = .ok (some true)
    ∧ ((apiChatOnce env s true false b st).2).completionCalls = st1.completionCalls + 1
    ∧ ((apiChatOnce env s true false b st).2).responses.getLast?
        = some (ToolsSlot.noneS, v)
    ∧ ((apiChatOnce env s true false b st).2).messages.getLast?
        = some (Message.chat (str "assistant") v) := by
  obtain ⟨tid, tty, tnm, targs⟩ := tc
  obtain ⟨rresp, rdump⟩ := r
  dsimp only at htype hargs hname hresp
  subst htype
  subst hargs
  subst hresp
  unfold apiChatOnce
  rw [hsc]
  simp only [requestOnetimeResponse, toolPhase, handleTriggeredToolCalls, toolCallsTruthy,
             toolsSlotOf, processResponse, handleError, hu, hcomp, hname, hrun]
  simp [List.getLast?_concat]

/-- An environment whose tools completion requests a single invocation of
the direct-response handler. -/
def envC6s : Env := { envC6 with completionsTools := fun _ => .ok ⟨some [tcA], str ""⟩ }

/-- Witness for the amended C6 with one registered tool answering outright. -/
theorem claim_C6_witness :
    (apiChatOnce envC6s (str "hi") true false false stC6).1 = .ok (some true)
    ∧ ((apiChatOnce envC6s (str "hi") true false false stC6).2).completionCalls
        = ({ stC6 with command_buffer := [] } : ChatState).completionCalls + 1
    ∧ ((apiChatOnce envC6s (str "hi") true false false stC6).2).responses.getLast?
        = some (ToolsSlot.noneS, str "A")
    ∧ ((apiChatOnce envC6s (str "hi") true false false stC6).2).messages.getLast?
        = some (Message.chat (str "assistant") (str "A")) :=
  claim_C6_amended envC6s (str "hi") (str "hi") (str "") (str "argsA") (str "A")
    stC6 { stC6 with command_buffer := [] } tcA toolFnA ⟨some (str "A"), str "RA"⟩ false
    rfl rfl rfl rfl rfl rfl rfl rfl

/-! ### C7: the visit cache invokes the resolver once per key -/

/-- Equality of strings is impossible when a common pattern is a prefix of
one and not of the other. -/
theorem ne_of_prefix_not_prefix {p l t : Str}
    (hp : p.isPrefixOf l = true) (ht : p.isPrefixOf t = false) : l ≠ t := by
  intro he
  subst he
  rw [hp] at ht
  cases ht

/-- An input starting with the visit token matches none of the exact-match
commands. -/
theorem dispatchExact_none_of_visit (env : Env) {lu : Str} (st : ChatState)
    (hpre : (str "\\visit").isPrefixOf lu = true) :
    dispatchExact env lu st = none := by
  have h1 : lu ≠ str "\\quit" := ne_of_prefix_not_prefix hpre (by decide)
  have h2 : lu ≠ str "\\\\quit" := ne_of_prefix_not_prefix hpre (by decide)
  have h3 : lu ≠ str "\\syntax" := ne_of_prefix_not_prefix hpre (by decide)
  have h4 : lu ≠ str "\\\\syntax" := ne_of_prefix_not_prefix hpre (by decide)
  have h5 : lu ≠ str "\\delete" := ne_of_prefix_not_prefix hpre (by decide)
  have h6 : lu ≠ str "\\\\delete" := ne_of_prefix_not_prefix hpre (by decide)
  have h7 : lu ≠ str "\\deleteall" := ne_of_prefix_not_prefix hpre (by decide)
  have h8 : lu ≠ str "\\\\deleteall" := ne_of_prefix_not_prefix hpre (by decide)
  have h9 : lu ≠ str "\\toolcall" := ne_of_prefix_not_prefix hpre (by decide)
  have h10 : lu ≠ str "\\\\toolcall" := ne_of_prefix_not_prefix hpre (by decide)
  unfold dispatchExact
  rw [if_neg (not_or_intro h1 h2), if_neg (not_or_intro h3 h4),
      if_neg (not_or_intro h5 h6), if_neg (not_or_intro h7 h8),
      if_neg (not_or_intro h9 h10)]

/-- With the bare-visit guard established, the visit group fires its first
branch. -/
theorem dispatchVisit_bare_fires (env : Env) {u lu : Str} (st : ChatState)
    (hpre : (str "\\visit").isPrefixOf lu = true)
    (hocc : occursFrom (str "\\visit") 6 lu = false) :
    dispatchVisit env u lu st = some (visitBare env (u.drop 7) st) := by
  unfold dispatchVisit
  rw [if_pos ⟨hpre, hocc⟩]

/-- Any input whose lowercased normalization starts with the visit token,
with no second occurrence, is routed by the classifier to the bare visit
handler on the tail after the token (with the command buffer cleared). -/
theorem hsc_visit_bare (env : Env) (s : Str) (st : ChatState)
    (hpre : (str "\\visit").isPrefixOf (pyLower (normalizeInput s)) = true)
    (hocc : occursFrom (str "\\visit") 6 (pyLower (normalizeInput s)) = false) :
    handleSpecialCommands env s st
      = visitBare env ((normalizeInput s).drop 7) { st with command_buffer := [] } := by
  unfold handleSpecialCommands dispatchCommand
  dsimp only
  rw [dispatchExact_none_of_visit env _ hpre]
  rw [dispatchVisit_bare_fires env _ hpre hocc]

/-- The content fetch selected by the address class: 1 resolves through the
file visitor (total), 2 through the web crawler, 3 through the folder
walker (both fallible), mirroring the three fetch arms of handle_visit. -/
def fetchOf (env : Env) (t : Int) (key : Str) : Except Err Str :=
  if t = 1 then .ok (env.fileVisit key)
  else if t = 2 then env.crawlSite key
  else env.walkDir key

/-- handle_visit on a cache miss for a resolvable address: the resolver is
invoked, the counter advances, and the fetched content is cached under the
normalized key. -/
theorem handleVisit_miss (env : Env) {s0 key : Str} (st : ChatState) {t : Int} {c : Str}
    (hsp : str_unquote (pyStrip s0) = key)
    (hcls : env.classify key = .ok t)
    (ht : t = 1 ∨ t = 2 ∨ t = 3)
    (hfetch : fetchOf env t key = .ok c)
    (hmiss : dictGet st.visit_cache key = none) :
    handleVisit env s0 st
      = (.ok (some c), { st with visit_cache := dictSet st.visit_cache key c,
                                 fetchCalls := st.fetchCalls + 1 }) := by
  unfold handleVisit
  dsimp only
  rw [hsp, hcls]
  dsimp only
  rcases ht with rfl | rfl | rfl
  · rw [if_pos rfl, hmiss]
    have hc : env.fileVisit key = c := by simpa [fetchOf] using hfetch
    rw [hc]
  · rw [if_neg (by decide), if_pos rfl, hmiss]
    have hc : env.crawlSite key = .ok c := by simpa [fetchOf] using hfetch
    rw [hc]
  · rw [if_neg (by decide), if_neg (by decide), if_pos rfl, hmiss]
    have hc : env.walkDir key = .ok c := by simpa [fetchOf] using hfetch
    rw [hc]

/-- handle_visit on a cache hit for a resolvable address: the cached content
is returned and the state is untouched. -/
theorem handleVisit_hit (env : Env) {s0 key : Str} (st : ChatState) {t : Int} {c : Str}
    (hsp : str_unquote (pyStrip s0) = key)
    (hcls : env.classify key = .ok t)
    (ht : t = 1 ∨ t = 2 ∨ t = 3)
    (hhit : dictGet st.visit_cache key = some c) :
    handleVisit env s0 st = (.ok (some c), st) := by
  unfold handleVisit
  dsimp only
  rw [hsp, hcls]
  dsimp only
  rcases ht with rfl | rfl | rfl
  · rw [if_pos rfl, hhit]
  · rw [if_neg (by decide), if_pos rfl, hhit]
  · rw [if_neg (by decide), if_neg (by decide), if_pos rfl, hhit]

/-- The bare visit branch on a cache miss: fetch, cache, count, and build
the interpolated prompt. -/
theorem visitBare_miss (env : Env) {rest key : Str} (st : ChatState) {t : Int} {c : Str}
    (hsp : str_unquote (pyStrip (pyStrip rest)) = key)
    (hcls : env.classify key = .ok t)
    (ht : t = 1 ∨ t = 2 ∨ t = 3)
    (hfetch : fetchOf env t key = .ok c)
    (hmiss : dictGet st.visit_cache key = none) :
    visitBare env rest st
      = (.ok (.text (st.visit_prompt ++ pyStrip rest ++ str "? " ++ c
            ++ str "{Document} : " ++ c)),
         { st with visit_cache := dictSet st.visit_cache key c,
                   fetchCalls := st.fetchCalls + 1 }) := by
  unfold visitBare
  dsimp only
  rw [handleVisit_miss env st hsp hcls ht hfetch hmiss]

/-- The bare visit branch on a cache hit: same prompt, no state change. -/
theorem visitBare_hit (env : Env) {rest key : Str} (st : ChatState) {t : Int} {c : Str}
    (hsp : str_unquote (pyStrip (pyStrip rest)) = key)
    (hcls : env.classify key = .ok t)
    (ht : t = 1 ∨ t = 2 ∨ t = 3)
    (hhit : dictGet st.visit_cache key = some c) :
    visitBare env rest st
      = (.ok (.text (st.visit_prompt ++ pyStrip rest ++ str "? " ++ c
            ++ str "{Document} : " ++ c)), st) := by
  unfold visitBare
  dsimp only
  rw [handleVisit_hit env st hsp hcls ht hhit]

/-- C7: for an address that resolves successfully (classified as file, url,
or folder, with the content fetch succeeding) and is not yet cached, two
consecutive identical visit commands invoke the resolver exactly once: the
first call advances the fetch counter by one and stores the fetched content
in the visit cache under the quote-stripped, trimmed key; the second call
leaves the fetch counter unchanged and returns the same result, built from
the cached content. -/
theorem claim_C7 (env : Env) (s key : Str) (st : ChatState) (t : Int) (c : Str)
    (hkey : key = str_unquote (pyStrip (pyStrip ((normalizeInput s).drop 7))))
    (hpre : (str "\\visit").isPrefixOf (pyLower (normalizeInput s)) = true)
    (hocc : occursFrom (str "\\visit") 6 (pyLower (normalizeInput s)) = false)
    (hcls : env.classify key = .ok t)
    (ht : t = 1 ∨ t = 2 ∨ t = 3)
    (hfetch : fetchOf env t key = .ok c)
    (hmiss : dictGet st.visit_cache key = none) :
    ((handleSpecialCommands env s st).2).fetchCalls = st.fetchCalls + 1
    ∧ dictGet ((handleSpecialCommands env s st).2).visit_cache key = some c
    ∧ ((handleSpecialCommands env s ((handleSpecialCommands env s st).2)).2).fetchCalls
        = ((handleSpecialCommands env s st).2).fetchCalls
    ∧ (handleSpecialCommands env s ((handleSpecialCommands env s st).2)).1
        = .ok (.text (st.visit_prompt ++ pyStrip ((normalizeInput s).drop 7) ++ str "? "
            ++ c ++ str "{Document} : " ++ c))
    ∧ (handleSpecialCommands env s ((handleSpecialCommands env s st).2)).1
        = (handleSpecialCommands env s st).1 := by
  subst hkey
  have hm1 : dictGet ({ st with command_buffer := [] } : ChatState).visit_cache
      (str_unquote (pyStrip (pyStrip ((normalizeInput s).drop 7)))) = none := hmiss
  have e1 : handleSpecialCommands env s st
      = visitBare env ((normalizeInput s).drop 7) { st with command_buffer := [] } :=
    hsc_visit_bare env s st hpre hocc
  have e2 := visitBare_miss env { st with command_buffer := [] } rfl hcls ht hfetch hm1
  rw [e1, e2]
  dsimp only
  rw [hsc_visit_bare env s _ hpre hocc]
  rw [visitBare_hit env _ rfl hcls ht (dictGet_dictSet_self _ _ _)]
  exact ⟨rfl, dictGet_dictSet_self _ _ _, rfl, rfl, rfl⟩

/-- Witness for C7: a concrete file address visited twice fetches once. -/
theorem claim_C7_witness :
    ((handleSpecialCommands env0 (str "\\visit file.txt") st0).2).fetchCalls
        = st0.fetchCalls + 1
    ∧ dictGet ((handleSpecialCommands env0 (str "\\visit file.txt") st0).2).visit_cache
        (str "file.txt") = some (str "FILECONTENT")
    ∧ ((handleSpecialCommands env0 (str "\\visit file.txt")
          ((handleSpecialCommands env0 (str "\\visit file.txt") st0).2)).2).fetchCalls
        = ((handleSpecialCommands env0 (str "\\visit file.txt") st0).2).fetchCalls
    ∧ (handleSpecialCommands env0 (str "\\visit file.txt")
          ((handleSpecialCommands env0 (str "\\visit file.txt") st0).2)).1
        = .ok (.text (st0.visit_prompt
            ++ pyStrip ((normalizeInput (str "\\visit file.txt")).drop 7) ++ str "? "
            ++ str "FILECONTENT" ++ str "{Document} : " ++ str "FILECONTENT"))
    ∧ (handleSpecialCommands env0 (str "\\visit file.txt")
          ((handleSpecialCommands env0 (str "\\visit file.txt") st0).2)).1
        = (handleSpecialCommands env0 (str "\\visit file.txt") st0).1 :=
  claim_C7 env0 (str "\\visit file.txt") (str "file.txt") st0 1 (str "FILECONTENT")
    (by decide) (by decide) (by decide) (by decide) (Or.inl rfl) (by decide) (by decide)

end NathUI
